import Mathlib

/-!
Verification of the travel-ROUTER trip-planning core against its
natural-language specification.

The development shallowly embeds the two orchestration source files:

* app.py — the LINE webhook handlers handle_postback and handle_message,
  together with the global trip_user_states location-wait dictionary; and
* main/main_trip/controllers/controller.py — TripController.process_message
  and its pipeline steps (vector retrieval fan-out/fan-in, candidate
  enrichment, trip composition).

Collaborators that live outside the embedded sources (the Mongo helper
trip_db, the Qdrant searcher, the LLM, pandas lookup, the trip planner)
are either passed in as function parameters or, where their behaviour
decides a claim, modelled from the specification; every such modelled
definition carries a doc comment starting with the words
Modelled from the spec.

Python dictionaries are embedded as association lists keyed by String,
Python ints as Int, and the per-request Python exception flow as explicit
Except / Option values.
-/

/- ## Basic string helpers (Python semantics, structurally recursive) -/

/-- Splitting a character list at every occurrence of a separator character,
with Python str.split(sep) semantics: the result always has one more part
than there are separators, and empty parts are kept. -/
def split_on_char (sep : Char) : List Char → List (List Char)
  | [] => [[]]
  | c :: rest =>
    match split_on_char sep rest with
    | [] => [[]]
    | h :: t => if c = sep then [] :: h :: t else (c :: h) :: t

/-- Python data.split("_") as used by handle_postback. -/
def split_underscore (s : String) : List String :=
  (split_on_char '_' s.data).map (fun cs => String.mk cs)

/-- Python s.startswith(p). -/
def py_starts_with (s p : String) : Bool :=
  p.data.isPrefixOf s.data

/-- Digit-list accumulator for py_parse_int. -/
def parse_digits_aux : List Char → Nat → Option Nat
  | [], acc => some acc
  | c :: cs, acc =>
    if c.isDigit then parse_digits_aux cs (acc * 10 + (c.toNat - 48)) else none

/-- Python int(s) on the payload fields: an optional sign followed by one or
more decimal digits parses to an integer; anything else raises ValueError,
embedded here as none. -/
def py_parse_int (s : String) : Option Int :=
  match s.data with
  | [] => none
  | '-' :: cs =>
    match cs with
    | [] => none
    | _ => (parse_digits_aux cs 0).map (fun n => -(n : Int))
  | '+' :: cs =>
    match cs with
    | [] => none
    | _ => (parse_digits_aux cs 0).map (fun n => (n : Int))
  | cs => (parse_digits_aux cs 0).map (fun n => (n : Int))

/-- Decimal digits of a positive natural, fuel-indexed so that it is
structurally recursive and kernel-computable. -/
def nat_digits_aux : Nat → Nat → List Char
  | 0, _ => []
  | fuel + 1, n =>
    if n = 0 then [] else nat_digits_aux fuel (n / 10) ++ [Char.ofNat (48 + n % 10)]

/-- Python str(n) for a natural number. -/
def nat_repr (n : Nat) : String :=
  if n = 0 then "0" else String.mk (nat_digits_aux (n + 1) n)

/-- Python str(n) for an int, as used to build the cancel button id. -/
def int_repr : Int → String
  | Int.ofNat n => nat_repr n
  | Int.negSucc n => "-" ++ nat_repr (n + 1)

/- ## Data model -/

/-- A stored trip plan: its total number of steps L and its restart index
(the first step eligible for regeneration, in the interval [0, L]). -/
structure TripPlan where
  length : Nat
  restart_index : Nat
deriving DecidableEq, Repr

/-- Modelled from the spec: the per-user record kept by the missing Mongo
helper trip_db (feature/nosql_mongo/mongo_trip/db_helper is not under src).
It holds the user's stored plans, the cancel button ids already recorded
(the step identities of already-known dislikes), the append-only dislike
reasons, and the raw recorded inputs. -/
structure UserTripState where
  plans : List TripPlan
  pressed : List String
  dislikes : List String
  inputs : List String
deriving DecidableEq, Repr

/-- The trip database, keyed by LINE user id. -/
abbrev TripDB := List (String × UserTripState)

/-- Removing a key from an association list (Python del / absent-key no-op). -/
def erase_key {α : Type} (l : List (String × α)) (k : String) : List (String × α) :=
  l.filter (fun p => !(p.1 == k))

/-- Writing a key in an association list (Python d[k] = v). -/
def assoc_set {α : Type} (l : List (String × α)) (k : String) (v : α) : List (String × α) :=
  (k, v) :: erase_key l k

/-- The whole webhook-process state: the global trip_user_states
location-wait dictionary of app.py plus the trip database. -/
structure AppState where
  trip_user_states : List (String × String)
  db : TripDB
deriving DecidableEq, Repr

/-- Observable outcome of one handle_postback call: the new state, the reply
sent to the user (none when no reply is sent), and what was printed/logged. -/
structure PostbackResult where
  state : AppState
  reply : Option String
  log : List String
deriving DecidableEq, Repr

/-- Observable outcome of one handle_message call: the new state and the
name of the external handler the message was dispatched to, if any. -/
structure MessageResult where
  state : AppState
  dispatched : Option String
deriving DecidableEq, Repr

/- ## Modelled trip_db operations -/

/-- Modelled from the spec: trip_db.update_plan_restart_index (the Mongo
helper is not under src). Per spec section 4.5 it validates 0 ≤ s < L for
the addressed plan, refuses a cancellation whose identity (button id) is
already recorded — a repeat cancellation must not mutate state — and
otherwise sets the plan's restart index to min(current restart index, s),
records the button id, and reports success. -/
def update_plan_restart_index (db : TripDB) (line_id : String)
    (plan_index restart_index : Int) (button_id : String) : TripDB × Bool :=
  match db.lookup line_id with
  | none => (db, false)
  | some user =>
    if button_id ∈ user.pressed then (db, false)
    else if 0 ≤ plan_index then
      match user.plans[plan_index.toNat]? with
      | none => (db, false)
      | some plan =>
        if 0 ≤ restart_index ∧ restart_index < (plan.length : Int) then
          (assoc_set db line_id
            { user with
              plans := user.plans.set plan_index.toNat
                { plan with restart_index := min plan.restart_index restart_index.toNat },
              pressed := user.pressed ++ [button_id] }, true)
        else (db, false)
    else (db, false)

/-- Modelled from the spec: trip_db.update_user_dislike (not under src)
appends the reason to the user's append-only dislike record. -/
def update_user_dislike (db : TripDB) (line_id reason : String) : TripDB :=
  match db.lookup line_id with
  | none => db
  | some user => assoc_set db line_id { user with dislikes := user.dislikes ++ [reason] }

/-- Modelled from the spec: trip_db.record_user_input (not under src)
records the raw input best-effort (spec section 6), creating the user's
record on first interaction, and reports that it recorded. -/
def record_user_input (db : TripDB) (line_id text : String) : TripDB × Bool :=
  match db.lookup line_id with
  | none => (assoc_set db line_id { plans := [], pressed := [], dislikes := [], inputs := [text] }, true)
  | some user => (assoc_set db line_id { user with inputs := user.inputs ++ [text] }, true)

/- ## app.py handle_postback -/

/-- app.py lines 120-121: any postback whose data does not start with
action=trip_planning first deletes the user's pending location-wait flag. -/
def clear_stale_flag (st : AppState) (line_id data : String) : AppState :=
  if (st.trip_user_states.lookup line_id).isSome
      && !(py_starts_with data "action=trip_planning") then
    { st with trip_user_states := erase_key st.trip_user_states line_id }
  else st

/-- app.py handle_postback. The action=trip_planning branch stores the
location-wait flag and replies with the quick-reply prompt; the
action=direct_plan branch dispatches to the external CommandHandler; the
cancel branch parses the 5-field payload, updates the restart index through
trip_db, appends the dislike on success, and replies with the recorded or
already-known acknowledgement; an int parse failure propagates to the outer
except which logs and replies with the generic error text. -/
def handle_postback (st : AppState) (line_id data : String) : PostbackResult :=
  let st1 := clear_stale_flag st line_id data
  if py_starts_with data "action=trip_planning" then
    { state := { st1 with trip_user_states := assoc_set st1.trip_user_states line_id "waiting_location" },
      reply := some "請選擇規劃方式", log := [] }
  else if data = "action=direct_plan" then
    { state := st1, reply := none, log := ["handle_trip_command"] }
  else if py_starts_with data "cancel_" then
    match split_underscore data with
    | [_, p1, p2, name, label] =>
      match py_parse_int p1, py_parse_int p2 with
      | some plan_index, some step =>
        let button_id := "cancel_" ++ int_repr plan_index ++ "_" ++ int_repr step
        let r := update_plan_restart_index st1.db line_id plan_index step button_id
        if r.2 then
          { state := { st1 with db := update_user_dislike r.1 line_id ("我不喜歡" ++ name ++ "(" ++ label ++ ")") },
            reply := some ("已紀錄您不喜歡" ++ name ++ "(" ++ label ++ ")"),
            log := ["更新結果: True, button_id: " ++ button_id] }
        else
          { state := { st1 with db := r.1 },
            reply := some ("別再按啦! 我已經知道您不喜歡" ++ name ++ "(" ++ label ++ ")"),
            log := ["更新結果: False, button_id: " ++ button_id] }
      | _, _ =>
        { state := st1, reply := some "處理請求時發生錯誤，請稍後再試",
          log := ["處理postback時發生錯誤"] }
    | _ =>
      { state := st1, reply := none, log := ["按鈕格式錯誤: \x7bdata\x7d"] }
  else
    { state := st1, reply := none, log := [] }

/- ## app.py handle_message -/

/-- app.py lines 250-293: which external handler a parsed command is
dispatched to; none when no branch matches (an unrelated free-text
message). -/
def dispatch_of (command line_id : String) (scenario_user_states : List String) : Option String :=
  if command = "使用說明" then some "handle_help_command"
  else if command = "旅遊規劃說明" then some "handle_trip_help"
  else if command = "情境搜索說明" then some "handle_search_help"
  else if command = "旅遊推薦" then some "handle_trip_command"
  else if command = "紀錄初始化" then some "handle_init_command"
  else if command = "我想進行情境搜索" then some "handle_scenario_search"
  else if line_id ∈ scenario_user_states then some "handle_user_query"
  else if command = "顯示我的收藏" then some "show_favorites"
  else if py_starts_with command "收藏店家:" then some "add_favorite"
  else if py_starts_with command "移除" then some "remove_favorite"
  else if command = "推薦其他店家" then some "recommend_others"
  else none

/-- app.py handle_message: delete the location-wait flag if present, record
the raw input through trip_db, parse the command via the external
CommandHandler (passed in as a parameter) and dispatch. The dispatched
external handlers live outside the embedded sources; the state recorded
here is exactly the mutation handle_message itself performs. -/
def handle_message (parse_command : String → String × Option String)
    (scenario_user_states : List String) (st : AppState) (line_id text : String) : MessageResult :=
  let st1 := { st with trip_user_states := erase_key st.trip_user_states line_id }
  let db1 := (record_user_input st1.db line_id text).1
  let command := (parse_command text).1
  { state := { st1 with db := db1 },
    dispatched := dispatch_of command line_id scenario_user_states }

/- ## Observation helpers -/

/-- The plan stored at a given index for a given user. -/
def plan_of (st : AppState) (line_id : String) (i : Nat) : Option TripPlan :=
  match st.db.lookup line_id with
  | some u => u.plans[i]?
  | none => none

/-- The dislike record of a given user. -/
def dislikes_of (st : AppState) (line_id : String) : List String :=
  match st.db.lookup line_id with
  | some u => u.dislikes
  | none => []

/-- The pending location-wait flag of a given user. -/
def flag_of (st : AppState) (line_id : String) : Option String :=
  st.trip_user_states.lookup line_id

/- ## controller.py TripController -/

/-- The parameters a qdrant_search instance is constructed with
(controller.py lines 97-102). The score threshold is the exact dyadic
value 0.5, embedded as a rational. -/
structure QdrantParams where
  collection : String
  score_threshold : ℚ
  limit : Nat
deriving DecidableEq

/-- The constants of the qdrant_search construction in _vector_retrieval:
collection view_restaurant_test, score threshold 0.5, result cap 30. -/
def qdrantParams : QdrantParams :=
  { collection := "view_restaurant_test", score_threshold := 1/2, limit := 30 }

/-- One period descriptor, a single-key Python dict label ↦ description. -/
abbrev Query := String × String

/-- A period-label ↦ ranked-place-id mapping, as returned by trip_search
and accumulated by _vector_retrieval. -/
abbrev RetrievalResult := List (String × List String)

/-- Python dict.update: keys already present are overwritten in place,
new keys are appended. -/
def dict_update (acc r : RetrievalResult) : RetrievalResult :=
  r.foldl (fun d kv =>
    if (d.lookup kv.1).isSome then d.map (fun p => if p.1 == kv.1 then kv else p)
    else d ++ [kv]) acc

/-- controller.py _vector_retrieval. The qdrant_search construction is the
external collaborator: qdrant_init is its outcome (an error there is caught
by the outer except and re-raised with the 向量搜尋發生錯誤 prefix). One
task is submitted per period descriptor, each calling trip_search on the
searcher built with qdrantParams; a task failure (none) is swallowed by the
inner except and merely skipped, so the loop itself can never raise. -/
def vector_retrieval
    (qdrant_init : Except String (QdrantParams → Query → Option RetrievalResult))
    (period_describe : List Query) : Except String RetrievalResult :=
  match qdrant_init with
  | Except.error e => Except.error ("向量搜尋發生錯誤: " ++ e)
  | Except.ok trip_search =>
    Except.ok (period_describe.foldl (fun results query =>
      match trip_search qdrantParams query with
      | some result => dict_update results result
      | none => results) [])

/-- The fan-in policy stated on its own: each period's task outcome in
order, failures dropped, successes merged with dict update. -/
def merge_results (rs : List (Option RetrievalResult)) : RetrievalResult :=
  rs.foldl (fun acc r =>
    match r with
    | some t => dict_update acc t
    | none => acc) []

/-- The unique-requirement flags, e.g. a 無障礙 boolean. -/
abbrev UniqueReq := List (String × Bool)

/-- The base-requirement record, opaque to the steps embedded here. -/
abbrev BaseReq := List (String × String)

/-- The external collaborators consumed by TripController.process_message:
the LLM Thinking_fun, the qdrant_search construction, the pandas dataset
lookup, and the trip planner. Each failure carries the Python exception
message. -/
structure Collaborators where
  thinking_fun : String → Except String (List Query × UniqueReq × BaseReq)
  qdrant_init : Except String (QdrantParams → Query → Option RetrievalResult)
  pandas_search : RetrievalResult → UniqueReq → Except String (List String)
  plan_trip : List String → BaseReq → Except String String

/-- controller.py _get_places: the unique_requirement parameter is
overwritten with the constant 無障礙=False list on line 150 before the
pandas lookup is invoked. -/
def get_places (pandas_search : RetrievalResult → UniqueReq → Except String (List String))
    (placeIDs : RetrievalResult) (unique_requirement : UniqueReq) :
    Except String (List String) :=
  pandas_search placeIDs [("無障礙", false)]

/-- controller.py process_message: intent analysis, vector retrieval,
place enrichment and trip planning in sequence, with the outer except
turning any escaped exception e into the reply
抱歉，系統發生錯誤: str(e). -/
def process_message (c : Collaborators) (input_text : String) : String :=
  match c.thinking_fun input_text with
  | Except.error e => "抱歉，系統發生錯誤: " ++ e
  | Except.ok (period_describe, unique_requirement, base_requirement) =>
    match vector_retrieval c.qdrant_init period_describe with
    | Except.error e => "抱歉，系統發生錯誤: " ++ e
    | Except.ok placeIDs =>
      match get_places c.pandas_search placeIDs unique_requirement with
      | Except.error e => "抱歉，系統發生錯誤: " ++ e
      | Except.ok location_details =>
        match c.plan_trip location_details base_requirement with
        | Except.error e => "抱歉，系統發生錯誤: " ++ e
        | Except.ok itinerary => itinerary

/- ## Concrete scenario data shared by the claim witnesses -/

/-- A user holding four stored plans, the fourth of length 6 freshly
generated (restart index = L = 6), no recorded cancellations. -/
def demo_user : UserTripState :=
  { plans := [⟨3, 3⟩, ⟨3, 3⟩, ⟨3, 3⟩, ⟨6, 6⟩], pressed := [], dislikes := [], inputs := [] }

/-- App state holding demo_user under id U1 and no pending flag. -/
def demo_state : AppState := { trip_user_states := [], db := [("U1", demo_user)] }

/-- A user with a stored plan, one recorded cancellation and one dislike. -/
def veteran_user : UserTripState :=
  { plans := [⟨6, 5⟩], pressed := ["cancel_0_5"], dislikes := ["我不喜歡甲(乙)"], inputs := [] }

/-- App state holding veteran_user under id U1 together with a pending
location-wait flag. -/
def veteran_state : AppState :=
  { trip_user_states := [("U1", "waiting_location")], db := [("U1", veteran_user)] }

/-- A searcher whose every task fails. -/
def all_fail_search : QdrantParams → Query → Option RetrievalResult := fun _ _ => none

/-- Two period descriptors, as in the morning-plus-lunch scenario. -/
def demo_periods : List Query := [("上午", "文青咖啡廳"), ("中餐", "便宜又好吃")]

/-- Collaborators whose intent analysis raises with message boom and whose
other services are inert. -/
def boom_collaborators : Collaborators :=
  { thinking_fun := fun _ => Except.error "boom"
  , qdrant_init := Except.ok all_fail_search
  , pandas_search := fun _ _ => Except.ok []
  , plan_trip := fun _ _ => Except.ok "" }

/-- The user record right after a successful restart-index update for a
cancellation of step s on plan plan_index: the plan's restart index
becomes min(previous, s) and the button id is recorded. -/
def cancel_updated_user (user : UserTripState) (plan : TripPlan)
    (plan_index step : Int) : UserTripState :=
  { user with
    plans := user.plans.set plan_index.toNat
      { plan with restart_index := min plan.restart_index step.toNat },
    pressed := user.pressed ++ ["cancel_" ++ int_repr plan_index ++ "_" ++ int_repr step] }

/-- The user record after the subsequent dislike append. -/
def cancel_done_user (user : UserTripState) (plan : TripPlan)
    (plan_index step : Int) (name label : String) : UserTripState :=
  { cancel_updated_user user plan plan_index step with
    dislikes := user.dislikes ++ ["我不喜歡" ++ name ++ "(" ++ label ++ ")"] }

/- ## Helper lemmas -/

/-- Clearing the stale location-wait flag never touches the database. -/
theorem clear_stale_flag_db (st : AppState) (line_id data : String) :
    (clear_stale_flag st line_id data).db = st.db := by
  unfold clear_stale_flag
  split <;> rfl

/-- Looking up a key just erased yields nothing. -/
theorem lookup_erase_key_self {α : Type} (l : List (String × α)) (k : String) :
    List.lookup k (erase_key l k) = none := by
  induction l with
  | nil => rfl
  | cons p t ih =>
    cases p with
    | mk a b =>
      by_cases h : a = k
      · have h1 : erase_key ((a, b) :: t) k = erase_key t k := by
          simp [erase_key, List.filter_cons, h]
        rw [h1]; exact ih
      · have h1 : erase_key ((a, b) :: t) k = (a, b) :: erase_key t k := by
          simp [erase_key, List.filter_cons, h]
        have h2 : (k == a) = false := by
          simp [Ne.symm h]
        rw [h1]
        simp only [List.lookup, h2]
        exact ih

/-- Looking up a key just written yields the written value. -/
theorem lookup_assoc_set_self {α : Type} (l : List (String × α)) (k : String) (v : α) :
    List.lookup k (assoc_set l k v) = some v := by
  simp [assoc_set, List.lookup]

/-- After clearing the stale flag on a non-planning postback, the user's
location-wait flag is gone (it was either erased or already absent). -/
theorem clear_stale_flag_lookup (st : AppState) (line_id data : String)
    (h : py_starts_with data "action=trip_planning" = false) :
    List.lookup line_id (clear_stale_flag st line_id data).trip_user_states = none := by
  unfold clear_stale_flag
  rw [h]
  cases hs : List.lookup line_id st.trip_user_states with
  | none =>
    simp [hs]
  | some v =>
    simp only [hs, Option.isSome_some, Bool.not_false, Bool.and_true, if_true]
    exact lookup_erase_key_self _ _

/-- A successful restart-index update: fresh button id, existing plan,
valid step. -/
theorem update_plan_restart_index_success (db : TripDB) (line_id : String)
    (pi s : Int) (bid : String) (user : UserTripState) (plan : TripPlan)
    (hu : db.lookup line_id = some user)
    (hfresh : bid ∉ user.pressed)
    (hpi : 0 ≤ pi)
    (hplan : user.plans[pi.toNat]? = some plan)
    (hs0 : 0 ≤ s) (hsL : s < (plan.length : Int)) :
    update_plan_restart_index db line_id pi s bid =
      (assoc_set db line_id
        { user with
          plans := user.plans.set pi.toNat
            { plan with restart_index := min plan.restart_index s.toNat },
          pressed := user.pressed ++ [bid] }, true) := by
  simp [update_plan_restart_index, hu, hfresh, hpi, hplan, hs0, hsL]

/-- A repeated cancellation: the button id is already recorded, so the
update refuses and the database is returned unchanged. -/
theorem update_plan_restart_index_repeat (db : TripDB) (line_id : String)
    (pi s : Int) (bid : String) (user : UserTripState)
    (hu : db.lookup line_id = some user)
    (hmem : bid ∈ user.pressed) :
    update_plan_restart_index db line_id pi s bid = (db, false) := by
  simp [update_plan_restart_index, hu, hmem]

/-- A negative plan index or step: the update refuses and the database is
returned unchanged, whatever the state. -/
theorem update_plan_restart_index_neg (db : TripDB) (line_id : String)
    (pi s : Int) (bid : String) (h : pi < 0 ∨ s < 0) :
    update_plan_restart_index db line_id pi s bid = (db, false) := by
  unfold update_plan_restart_index
  cases hdb : db.lookup line_id with
  | none => rfl
  | some user =>
    by_cases hp : bid ∈ user.pressed
    · simp [hp]
    · rcases h with h | h
      · have hpi : ¬ (0 ≤ pi) := by omega
        simp [hp, hpi]
      · by_cases hpi : 0 ≤ pi
        · cases hg : user.plans[pi.toNat]? with
          | none => simp [hp, hpi, hg]
          | some plan =>
            have hns : ¬ (0 ≤ s ∧ s < (plan.length : Int)) := by omega
            simp [hp, hpi, hg, hns]
        · simp [hp, hpi]

/-- Reduction of handle_postback on a well-formed cancel payload to the
restart-index update and its two acknowledgement branches. -/
theorem handle_postback_cancel_eq (st : AppState) (line_id data f0 p1 p2 name label : String)
    (plan_index step : Int)
    (h1 : py_starts_with data "action=trip_planning" = false)
    (h2 : data ≠ "action=direct_plan")
    (h3 : py_starts_with data "cancel_" = true)
    (h4 : split_underscore data = [f0, p1, p2, name, label])
    (h5 : py_parse_int p1 = some plan_index)
    (h6 : py_parse_int p2 = some step) :
    handle_postback st line_id data =
      (let st1 := clear_stale_flag st line_id data
       let button_id := "cancel_" ++ int_repr plan_index ++ "_" ++ int_repr step
       let r := update_plan_restart_index st1.db line_id plan_index step button_id
       if r.2 then
         { state := { st1 with db := update_user_dislike r.1 line_id ("我不喜歡" ++ name ++ "(" ++ label ++ ")") },
           reply := some ("已紀錄您不喜歡" ++ name ++ "(" ++ label ++ ")"),
           log := ["更新結果: True, button_id: " ++ button_id] }
       else
         { state := { st1 with db := r.1 },
           reply := some ("別再按啦! 我已經知道您不喜歡" ++ name ++ "(" ++ label ++ ")"),
           log := ["更新結果: False, button_id: " ++ button_id] }) := by
  unfold handle_postback
  simp only [h1, h3, h4, h5, h6, Bool.false_eq_true, if_false, if_true, if_neg h2]

/- ## Claim theorems -/

/-- C1: for every cancellation event on step s of an existing plan of
length L, with 0 ≤ s < L and the cancellation's identity not yet recorded
(spec section 4.5 ties the min-update to this fresh-cancellation
transition; a repeat cancellation leaves state unchanged, per the same
section), handling the postback sets that plan's restart index to
min(previous restart index, s). The scenario payload
cancel_3_5_遼寧街夜市_夜市 on plan index 3 of a freshly generated plan of
length 6 is instantiated in the witness theorem, yielding restart index 5. -/
theorem thm_C1 (st : AppState) (line_id data f0 p1 p2 name label : String)
    (plan_index step : Int) (user : UserTripState) (plan : TripPlan)
    (h1 : py_starts_with data "action=trip_planning" = false)
    (h2 : data ≠ "action=direct_plan")
    (h3 : py_starts_with data "cancel_" = true)
    (h4 : split_underscore data = [f0, p1, p2, name, label])
    (h5 : py_parse_int p1 = some plan_index)
    (h6 : py_parse_int p2 = some step)
    (hu : st.db.lookup line_id = some user)
    (hfresh : ("cancel_" ++ int_repr plan_index ++ "_" ++ int_repr step) ∉ user.pressed)
    (hpi : 0 ≤ plan_index)
    (hplan : user.plans[plan_index.toNat]? = some plan)
    (hs0 : 0 ≤ step) (hsL : step < (plan.length : Int)) :
    plan_of (handle_postback st line_id data).state line_id plan_index.toNat
      = some { plan with restart_index := min plan.restart_index step.toNat } := by
  rw [handle_postback_cancel_eq st line_id data f0 p1 p2 name label plan_index step
    h1 h2 h3 h4 h5 h6]
  have hlt : plan_index.toNat < user.plans.length := (List.getElem?_eq_some.mp hplan).1
  simp only [clear_stale_flag_db]
  rw [update_plan_restart_index_success st.db line_id plan_index step _ user plan
    hu hfresh hpi hplan hs0 hsL]
  simp only [plan_of, update_user_dislike, lookup_assoc_set_self, eq_self_iff_true, if_true]
  exact List.getElem?_set_eq_of_lt _ hlt

/-- Witness for C1: the scenario cancellation cancel_3_5_遼寧街夜市_夜市 on
plan index 3 of a fresh plan of length 6 (restart index 6) sets that plan's
restart index to min(6, 5) = 5. -/
theorem thm_C1_witness :
    plan_of (handle_postback demo_state "U1" "cancel_3_5_遼寧街夜市_夜市").state "U1" 3
      = some ⟨6, 5⟩ := by
  have h := thm_C1 demo_state "U1" "cancel_3_5_遼寧街夜市_夜市" "cancel" "3" "5" "遼寧街夜市"
    "夜市" 3 5 demo_user ⟨6, 6⟩ rfl (by decide) rfl rfl rfl rfl rfl (by decide) (by decide)
    rfl (by decide) (by decide)
  exact h.trans (by decide)

/-- Clearing the stale flag is a no-op when the user has no pending flag. -/
theorem clear_stale_flag_of_absent (st : AppState) (line_id data : String)
    (h : List.lookup line_id st.trip_user_states = none) :
    clear_stale_flag st line_id data = st := by
  unfold clear_stale_flag
  simp [h]

/-- The two cancellation acknowledgement texts are distinguishable. -/
theorem ack_texts_distinct (name label : String) :
    ("別再按啦! 我已經知道您不喜歡" ++ name ++ "(" ++ label ++ ")")
      ≠ ("已紀錄您不喜歡" ++ name ++ "(" ++ label ++ ")") := by
  intro h
  have hlen := congrArg String.length h
  have e1 : ("別再按啦! 我已經知道您不喜歡").length = 15 := rfl
  have e2 : ("已紀錄您不喜歡").length = 7 := rfl
  simp only [String.length_append, e1, e2] at hlen
  omega

/-- Full reduction of a fresh, valid cancellation postback. -/
theorem handle_postback_fresh (st : AppState) (line_id data f0 p1 p2 name label : String)
    (plan_index step : Int) (user : UserTripState) (plan : TripPlan)
    (h1 : py_starts_with data "action=trip_planning" = false)
    (h2 : data ≠ "action=direct_plan")
    (h3 : py_starts_with data "cancel_" = true)
    (h4 : split_underscore data = [f0, p1, p2, name, label])
    (h5 : py_parse_int p1 = some plan_index)
    (h6 : py_parse_int p2 = some step)
    (hu : st.db.lookup line_id = some user)
    (hfresh : ("cancel_" ++ int_repr plan_index ++ "_" ++ int_repr step) ∉ user.pressed)
    (hpi : 0 ≤ plan_index)
    (hplan : user.plans[plan_index.toNat]? = some plan)
    (hs0 : 0 ≤ step) (hsL : step < (plan.length : Int)) :
    handle_postback st line_id data =
      { state := { trip_user_states := (clear_stale_flag st line_id data).trip_user_states,
                   db := assoc_set
                     (assoc_set st.db line_id (cancel_updated_user user plan plan_index step))
                     line_id (cancel_done_user user plan plan_index step name label) },
        reply := some ("已紀錄您不喜歡" ++ name ++ "(" ++ label ++ ")"),
        log := ["更新結果: True, button_id: "
          ++ ("cancel_" ++ int_repr plan_index ++ "_" ++ int_repr step)] } := by
  rw [handle_postback_cancel_eq st line_id data f0 p1 p2 name label plan_index step
    h1 h2 h3 h4 h5 h6]
  simp only [clear_stale_flag_db]
  rw [update_plan_restart_index_success st.db line_id plan_index step _ user plan
    hu hfresh hpi hplan hs0 hsL]
  simp only [eq_self_iff_true, if_true, update_user_dislike, lookup_assoc_set_self]
  rfl

/-- Full reduction of a repeated cancellation postback: the button id is
already recorded, so the state is returned untouched together with the
already-known acknowledgement. -/
theorem handle_postback_repeat (st2 : AppState) (line_id data f0 p1 p2 name label : String)
    (plan_index step : Int) (user2 : UserTripState)
    (h1 : py_starts_with data "action=trip_planning" = false)
    (h2 : data ≠ "action=direct_plan")
    (h3 : py_starts_with data "cancel_" = true)
    (h4 : split_underscore data = [f0, p1, p2, name, label])
    (h5 : py_parse_int p1 = some plan_index)
    (h6 : py_parse_int p2 = some step)
    (hflag : List.lookup line_id st2.trip_user_states = none)
    (hu2 : st2.db.lookup line_id = some user2)
    (hmem : ("cancel_" ++ int_repr plan_index ++ "_" ++ int_repr step) ∈ user2.pressed) :
    handle_postback st2 line_id data =
      { state := st2,
        reply := some ("別再按啦! 我已經知道您不喜歡" ++ name ++ "(" ++ label ++ ")"),
        log := ["更新結果: False, button_id: "
          ++ ("cancel_" ++ int_repr plan_index ++ "_" ++ int_repr step)] } := by
  rw [handle_postback_cancel_eq st2 line_id data f0 p1 p2 name label plan_index step
    h1 h2 h3 h4 h5 h6]
  rw [clear_stale_flag_of_absent st2 line_id data hflag]
  simp only [update_plan_restart_index_repeat st2.db line_id plan_index step _ user2 hu2 hmem,
    Bool.false_eq_true, if_false]

/-- C2: a fresh cancellation of a valid plan step appends exactly one
dislike entry and replies with the recorded acknowledgement; repeating the
identical cancellation leaves the whole state unchanged and replies with
the distinguishable already-known acknowledgement instead. -/
theorem thm_C2 (st : AppState) (line_id data f0 p1 p2 name label : String)
    (plan_index step : Int) (user : UserTripState) (plan : TripPlan)
    (h1 : py_starts_with data "action=trip_planning" = false)
    (h2 : data ≠ "action=direct_plan")
    (h3 : py_starts_with data "cancel_" = true)
    (h4 : split_underscore data = [f0, p1, p2, name, label])
    (h5 : py_parse_int p1 = some plan_index)
    (h6 : py_parse_int p2 = some step)
    (hu : st.db.lookup line_id = some user)
    (hfresh : ("cancel_" ++ int_repr plan_index ++ "_" ++ int_repr step) ∉ user.pressed)
    (hpi : 0 ≤ plan_index)
    (hplan : user.plans[plan_index.toNat]? = some plan)
    (hs0 : 0 ≤ step) (hsL : step < (plan.length : Int)) :
    dislikes_of (handle_postback st line_id data).state line_id
      = user.dislikes ++ ["我不喜歡" ++ name ++ "(" ++ label ++ ")"] ∧
    (handle_postback st line_id data).reply
      = some ("已紀錄您不喜歡" ++ name ++ "(" ++ label ++ ")") ∧
    (handle_postback (handle_postback st line_id data).state line_id data).state
      = (handle_postback st line_id data).state ∧
    (handle_postback (handle_postback st line_id data).state line_id data).reply
      = some ("別再按啦! 我已經知道您不喜歡" ++ name ++ "(" ++ label ++ ")") ∧
    (handle_postback (handle_postback st line_id data).state line_id data).reply
      ≠ (handle_postback st line_id data).reply := by
  have e1 := handle_postback_fresh st line_id data f0 p1 p2 name label plan_index step
    user plan h1 h2 h3 h4 h5 h6 hu hfresh hpi hplan hs0 hsL
  have hflag : List.lookup line_id (handle_postback st line_id data).state.trip_user_states
      = none := by
    rw [e1]; exact clear_stale_flag_lookup st line_id data h1
  have hu2 : (handle_postback st line_id data).state.db.lookup line_id
      = some (cancel_done_user user plan plan_index step name label) := by
    rw [e1]; exact lookup_assoc_set_self _ _ _
  have hmem : ("cancel_" ++ int_repr plan_index ++ "_" ++ int_repr step)
      ∈ (cancel_done_user user plan plan_index step name label).pressed :=
    List.mem_append_right _ (List.mem_singleton_self _)
  have e2 := handle_postback_repeat (handle_postback st line_id data).state line_id data
    f0 p1 p2 name label plan_index step
    (cancel_done_user user plan plan_index step name label)
    h1 h2 h3 h4 h5 h6 hflag hu2 hmem
  refine ⟨?_, ?_, ?_, ?_, ?_⟩
  · rw [e1]
    simp [dislikes_of, lookup_assoc_set_self, cancel_done_user, cancel_updated_user]
  · rw [e1]
  · rw [e2]
  · rw [e2]
  · rw [e2, e1]
    exact fun hcon => ack_texts_distinct name label (Option.some.inj hcon)

/-- Witness for C2: cancelling step 5 of plan 3 twice on the demo state
records the dislike once with the recorded acknowledgement, then leaves
state untouched with the distinguishable already-known acknowledgement. -/
theorem thm_C2_witness :
    dislikes_of (handle_postback demo_state "U1" "cancel_3_5_遼寧街夜市_夜市").state "U1"
      = ["我不喜歡遼寧街夜市(夜市)"] ∧
    (handle_postback demo_state "U1" "cancel_3_5_遼寧街夜市_夜市").reply
      = some "已紀錄您不喜歡遼寧街夜市(夜市)" ∧
    (handle_postback (handle_postback demo_state "U1" "cancel_3_5_遼寧街夜市_夜市").state
        "U1" "cancel_3_5_遼寧街夜市_夜市").state
      = (handle_postback demo_state "U1" "cancel_3_5_遼寧街夜市_夜市").state ∧
    (handle_postback (handle_postback demo_state "U1" "cancel_3_5_遼寧街夜市_夜市").state
        "U1" "cancel_3_5_遼寧街夜市_夜市").reply
      = some "別再按啦! 我已經知道您不喜歡遼寧街夜市(夜市)" ∧
    (handle_postback (handle_postback demo_state "U1" "cancel_3_5_遼寧街夜市_夜市").state
        "U1" "cancel_3_5_遼寧街夜市_夜市").reply
      ≠ (handle_postback demo_state "U1" "cancel_3_5_遼寧街夜市_夜市").reply := by
  have h := thm_C2 demo_state "U1" "cancel_3_5_遼寧街夜市_夜市" "cancel" "3" "5" "遼寧街夜市"
    "夜市" 3 5 demo_user ⟨6, 6⟩ rfl (by decide) rfl rfl rfl rfl rfl (by decide) (by decide)
    rfl (by decide) (by decide)
  exact ⟨h.1.trans (by decide), h.2.1.trans (by decide), h.2.2.1,
    h.2.2.2.1.trans (by decide), h.2.2.2.2⟩

/-- C10: every postback whose data does not start with
action=trip_planning — cancel payloads and action=direct_plan included —
ends with the user's pending location-wait flag deleted: the flag is
removed before the event is dispatched and no later branch of the handler
re-creates it. -/
theorem thm_C10 (st : AppState) (line_id data : String)
    (h : py_starts_with data "action=trip_planning" = false) :
    flag_of (handle_postback st line_id data).state line_id = none := by
  have hcl := clear_stale_flag_lookup st line_id data h
  unfold handle_postback flag_of
  rw [h]
  simp only [Bool.false_eq_true, if_false]
  split <;> try exact hcl
  all_goals (try split) <;> try exact hcl
  all_goals (try split) <;> try exact hcl
  all_goals (try split) <;> try exact hcl
  all_goals (try split) <;> exact hcl

/-- Witness for C10: the action=direct_plan postback on a state holding a
pending location-wait flag for U1 deletes that flag. -/
theorem thm_C10_witness :
    flag_of (handle_postback veteran_state "U1" "action=direct_plan").state "U1" = none :=
  thm_C10 veteran_state "U1" "action=direct_plan" (by decide)

/-- C5 (amended): a cancel payload with the wrong underscore-delimited
field count is logged and ignored — no reply, no trip-database change;
but a 5-field payload whose indices fail integer parsing is instead caught
by the outer error boundary, which does send the generic error reply
(still with no trip-database change). In both cases the pending
location-wait flag, if any, has already been cleared (see C10). -/
theorem thm_C5 :
    (∀ (st : AppState) (line_id data : String),
      py_starts_with data "action=trip_planning" = false →
      data ≠ "action=direct_plan" →
      py_starts_with data "cancel_" = true →
      (split_underscore data).length ≠ 5 →
      (handle_postback st line_id data).reply = none ∧
      (handle_postback st line_id data).state.db = st.db ∧
      (handle_postback st line_id data).log = ["按鈕格式錯誤: \x7bdata\x7d"]) ∧
    (∀ (st : AppState) (line_id data f0 p1 p2 name label : String),
      py_starts_with data "action=trip_planning" = false →
      data ≠ "action=direct_plan" →
      py_starts_with data "cancel_" = true →
      split_underscore data = [f0, p1, p2, name, label] →
      (py_parse_int p1 = none ∨ py_parse_int p2 = none) →
      (handle_postback st line_id data).reply = some "處理請求時發生錯誤，請稍後再試" ∧
      (handle_postback st line_id data).state.db = st.db) := by
  constructor
  · intro st line_id data h1 h2 h3 hlen
    unfold handle_postback
    rw [h1]
    simp only [Bool.false_eq_true, if_false, if_neg h2, h3, if_true]
    split
    · rename_i f0x p1x p2x namex labelx heq
      exact absurd (by rw [heq]; rfl) hlen
    · exact ⟨rfl, clear_stale_flag_db st line_id data, rfl⟩
  · intro st line_id data f0 p1 p2 name label h1 h2 h3 h4 hbad
    unfold handle_postback
    rw [h1]
    simp only [Bool.false_eq_true, if_false, if_neg h2, h3, if_true, h4]
    rcases hbad with hp | hp
    · cases hq : py_parse_int p2 <;>
        · simp only [hp, hq]
          exact ⟨trivial, clear_stale_flag_db st line_id data⟩
    · cases hq : py_parse_int p1 <;>
        · simp only [hp, hq]
          exact ⟨trivial, clear_stale_flag_db st line_id data⟩

/-- Witness for C5 (amended): a 4-field cancel payload produces no reply,
no trip-database change and the format-error log line, while a 5-field
payload with an unparsable index produces the generic error reply with no
trip-database change. -/
theorem thm_C5_witness :
    ((handle_postback demo_state "U1" "cancel_3_遼寧街夜市_夜市").reply = none ∧
     (handle_postback demo_state "U1" "cancel_3_遼寧街夜市_夜市").state.db = demo_state.db ∧
     (handle_postback demo_state "U1" "cancel_3_遼寧街夜市_夜市").log
       = ["按鈕格式錯誤: \x7bdata\x7d"]) ∧
    ((handle_postback demo_state "U1" "cancel_x_5_遼寧街夜市_夜市").reply
       = some "處理請求時發生錯誤，請稍後再試" ∧
     (handle_postback demo_state "U1" "cancel_x_5_遼寧街夜市_夜市").state.db = demo_state.db) :=
  ⟨thm_C5.1 demo_state "U1" "cancel_3_遼寧街夜市_夜市" rfl (by decide) rfl (by decide),
   thm_C5.2 demo_state "U1" "cancel_x_5_遼寧街夜市_夜市" "cancel" "x" "5" "遼寧街夜市" "夜市"
     rfl (by decide) rfl rfl (Or.inl rfl)⟩

/-- Counterexample for C5 as stated: the claim says a malformed
cancellation payload — including one whose indices do not parse as
integers — is ignored with no reply of any kind; but on the payload
cancel_x_5_a_b (unparsable plan index) the handler's outer error boundary
does send the generic error reply to the user. -/
theorem thm_C5_counterexample :
    (handle_postback demo_state "U1" "cancel_x_5_a_b").reply
      = some "處理請求時發生錯誤，請稍後再試" := rfl

/-- C9 (amended): a cancel payload acted upon has exactly 5
underscore-delimited fields whose indices parse as integers, but the
handler does not require them to be non-negative: a payload with negative
indices parses, reaches the restart-index update call and is answered with
the already-known acknowledgement reply — only the modelled database
validation keeps it from mutating the trip database. -/
theorem thm_C9 (st : AppState) (line_id data f0 p1 p2 name label : String)
    (plan_index step : Int)
    (h1 : py_starts_with data "action=trip_planning" = false)
    (h2 : data ≠ "action=direct_plan")
    (h3 : py_starts_with data "cancel_" = true)
    (h4 : split_underscore data = [f0, p1, p2, name, label])
    (h5 : py_parse_int p1 = some plan_index)
    (h6 : py_parse_int p2 = some step)
    (hneg : plan_index < 0 ∨ step < 0) :
    (handle_postback st line_id data).state.db = st.db ∧
    (handle_postback st line_id data).reply
      = some ("別再按啦! 我已經知道您不喜歡" ++ name ++ "(" ++ label ++ ")") := by
  rw [handle_postback_cancel_eq st line_id data f0 p1 p2 name label plan_index step
    h1 h2 h3 h4 h5 h6]
  simp only [clear_stale_flag_db]
  simp only [update_plan_restart_index_neg st.db line_id plan_index step
    ("cancel_" ++ int_repr plan_index ++ "_" ++ int_repr step) hneg,
    Bool.false_eq_true, if_false]
  constructor <;> first | rfl | trivial

/-- Witness for C9 (amended): the negative-index payload cancel_-1_-2_a_b
leaves the trip database unchanged yet is answered with the already-known
acknowledgement. -/
theorem thm_C9_witness :
    (handle_postback veteran_state "U1" "cancel_-1_-2_a_b").state.db = veteran_state.db ∧
    (handle_postback veteran_state "U1" "cancel_-1_-2_a_b").reply
      = some "別再按啦! 我已經知道您不喜歡a(b)" := by
  have h := thm_C9 veteran_state "U1" "cancel_-1_-2_a_b" "cancel" "-1" "-2" "a" "b" (-1) (-2)
    rfl (by decide) rfl rfl rfl rfl (Or.inl (by decide))
  exact ⟨h.1, h.2.trans (by decide)⟩

/-- Counterexample for C9 as stated: the claim says a payload whose indices
parse as negative integers is never acted upon; but cancel_-1_-2_a_b parses
(both indices negative) and the handler acts on it, sending the user the
already-known acknowledgement naming the place. -/
theorem thm_C9_counterexample :
    py_parse_int "-1" = some (-1) ∧ py_parse_int "-2" = some (-2) ∧
    (handle_postback demo_state "U1" "cancel_-1_-2_a_b").reply
      = some "別再按啦! 我已經知道您不喜歡a(b)" := ⟨rfl, rfl, rfl⟩

/-- C7 (amended): when an unrelated free-text message arrives (no command
branch matches and the user has no scenario-search session), handle_message
discards only the pending location-wait flag and records the raw input;
the stored plans (and their restart indices), recorded cancellations and
the dislike history persist unchanged in the trip database. The trip_db
operation involved is modelled from spec section 6, which describes
record_user_input as best-effort raw-input recording. -/
theorem thm_C7 (parse_command : String → String × Option String)
    (scenario_user_states : List String) (st : AppState) (line_id text : String)
    (user : UserTripState)
    (hu : st.db.lookup line_id = some user)
    (hd : dispatch_of (parse_command text).1 line_id scenario_user_states = none) :
    (handle_message parse_command scenario_user_states st line_id text).dispatched = none ∧
    flag_of (handle_message parse_command scenario_user_states st line_id text).state line_id
      = none ∧
    (handle_message parse_command scenario_user_states st line_id text).state.db.lookup line_id
      = some { user with inputs := user.inputs ++ [text] } := by
  unfold handle_message
  refine ⟨hd, ?_, ?_⟩
  · exact lookup_erase_key_self _ _
  · simp only [record_user_input, hu]
    exact lookup_assoc_set_self _ _ _

/-- Witness for C7 (amended): an unrelated text from a user holding a
flag, a plan and a dislike clears the flag and appends the input, leaving
everything else in the user's record as it was. -/
theorem thm_C7_witness :
    (handle_message (fun t => (t, none)) [] veteran_state "U1" "今天天氣如何").dispatched
      = none ∧
    flag_of (handle_message (fun t => (t, none)) [] veteran_state "U1" "今天天氣如何").state "U1"
      = none ∧
    (handle_message (fun t => (t, none)) [] veteran_state "U1" "今天天氣如何").state.db.lookup "U1"
      = some { veteran_user with inputs := ["今天天氣如何"] } := by
  have h := thm_C7 (fun t => (t, none)) [] veteran_state "U1" "今天天氣如何" veteran_user
    rfl (by decide)
  exact ⟨h.1, h.2.1, h.2.2.trans (by decide)⟩

/-- Counterexample for C7 as stated: the claim says an unrelated free-text
message discards the plan and clears the dislike history; but after such a
message the stored plan, its restart index and the dislike record are all
still present — only the location-wait flag is gone. -/
theorem thm_C7_counterexample :
    dislikes_of (handle_message (fun t => (t, none)) [] veteran_state "U1" "今天天氣真好").state
        "U1" = ["我不喜歡甲(乙)"] ∧
    plan_of (handle_message (fun t => (t, none)) [] veteran_state "U1" "今天天氣真好").state
        "U1" 0 = some ⟨6, 5⟩ ∧
    flag_of (handle_message (fun t => (t, none)) [] veteran_state "U1" "今天天氣真好").state
        "U1" = none :=
  ⟨rfl, rfl, rfl⟩

/-- C8: the retrieval step constructs its searcher with the one fixed
collection view_restaurant_test, similarity threshold 0.5 and result cap
30, and queries it independently, once per period descriptor in input
order, merging each period's ranked result into the returned mapping (the
searcher itself — embedding plus vector query returning ranked pairs — is
the external collaborator). -/
theorem thm_C8 :
    qdrantParams.collection = "view_restaurant_test" ∧
    qdrantParams.score_threshold = 1/2 ∧
    qdrantParams.limit = 30 ∧
    ∀ (search : QdrantParams → Query → Option RetrievalResult) (ps : List Query),
      vector_retrieval (Except.ok search) ps
        = Except.ok (merge_results (ps.map (fun q => search qdrantParams q))) := by
  refine ⟨rfl, rfl, rfl, ?_⟩
  intro search ps
  unfold vector_retrieval merge_results
  rw [List.foldl_map]

/-- C3 (amended): every per-period task failure is dropped — and when all
tasks fail the coordinator raises nothing, returning the empty mapping
normally instead of a RetrievalError. -/
theorem thm_C3 (search : QdrantParams → Query → Option RetrievalResult) (ps : List Query)
    (hall : ∀ q ∈ ps, search qdrantParams q = none) :
    vector_retrieval (Except.ok search) ps = Except.ok [] := by
  unfold vector_retrieval
  dsimp only
  have key : ∀ (l : List Query), (∀ q ∈ l, search qdrantParams q = none) →
      ∀ acc : RetrievalResult,
      l.foldl (fun results query =>
        match search qdrantParams query with
        | some result => dict_update results result
        | none => results) acc = acc := by
    intro l hl
    induction l with
    | nil => intro acc; rfl
    | cons q t ih =>
      intro acc
      have hq := hl q (List.mem_cons_self q t)
      simp only [List.foldl_cons, hq]
      exact ih (fun x hx => hl x (List.mem_cons_of_mem q hx)) acc
  rw [key ps hall []]

/-- Witness for C3 (amended): one period whose task fails yields the empty
mapping, returned normally. -/
theorem thm_C3_witness :
    vector_retrieval (Except.ok all_fail_search) [("上午", "文青咖啡廳")] = Except.ok [] :=
  thm_C3 all_fail_search [("上午", "文青咖啡廳")] (fun _ _ => rfl)

/-- Counterexample for C3 as stated: the claim says the coordinator raises
RetrievalError exactly when every task fails; but with both period tasks
failing the retrieval returns Except.ok with the empty mapping — no error
is raised at all (the inner per-future except swallows every task
failure, so the all-fail case cannot reach the raise). -/
theorem thm_C3_counterexample :
    vector_retrieval (Except.ok all_fail_search) demo_periods = Except.ok [] ∧
    (vector_retrieval (Except.ok all_fail_search) demo_periods).isOk = true :=
  ⟨rfl, rfl⟩

/-- C4 (amended): an unexpected pipeline failure is converted by
process_message's outer boundary into one apology reply — but that reply
embeds the exception's message text after the 抱歉，系統發生錯誤 prefix,
so internal detail does reach the user-facing string returned by
process_message (the LINE boundaries in app.py, by contrast, send fixed
generic texts without any exception detail). -/
theorem thm_C4 (c : Collaborators) (text e : String)
    (h : c.thinking_fun text = Except.error e) :
    process_message c text = "抱歉，系統發生錯誤: " ++ e := by
  unfold process_message
  rw [h]

/-- Witness for C4 (amended): an intent-analysis failure with message boom
yields the apology reply with boom embedded. -/
theorem thm_C4_witness :
    process_message boom_collaborators "想去台北" = "抱歉，系統發生錯誤: boom" :=
  (thm_C4 boom_collaborators "想去台北" "boom" rfl).trans (by decide)

/-- Counterexample for C4 as stated: the claim says the exception's
message text never appears in the user-facing reply; but when the
language-model collaborator fails with message boom, process_message
returns the reply string with boom appended to the apology prefix. -/
theorem thm_C4_counterexample :
    process_message boom_collaborators "想去台北文青的地方"
      = "抱歉，系統發生錯誤: " ++ "boom" ∧
    List.isSuffixOf "boom".data (process_message boom_collaborators "想去台北文青的地方").data
      = true :=
  ⟨rfl, by decide⟩

/-- C6: the candidate-enrichment step does not pass the analyzer's
unique_requirements to the dataset lookup — controller.py line 150
overwrites the parameter with the constant 無障礙=False list, so the
lookup's filter input is identical for every analyzer output. This proves
the claim false as stated and documents the code bug: the analyzer's
requirement flags can never influence the filter. -/
theorem thm_C6 :
    ∀ (pandas_search : RetrievalResult → UniqueReq → Except String (List String))
      (placeIDs : RetrievalResult) (u v : UniqueReq),
      get_places pandas_search placeIDs u = get_places pandas_search placeIDs v ∧
      get_places pandas_search placeIDs u = pandas_search placeIDs [("無障礙", false)] :=
  fun _ _ _ _ => ⟨rfl, rfl⟩
